import Mathlib

/-!
Verification of the sha_file_hashing library: a shallow embedding of
`src/lib.rs` (the digest engine `hash_file` / `validate_file`, the path
entry points `hash_file_from_path` / `validate_file_from_path`, and the
`Hashable` impls for `Path`, `PathBuf` and `File`), together with an
executable model of the SHA-1 algorithm provided by the `sha1` crate and
of the relevant `std` I/O behavior.

Bytes are modelled as `Nat` values (reduced mod 256 where the Rust `u8`
type guarantees the range); 32-bit words as `Nat` with explicit mod 2^32.
-/

/-- The modulus of SHA-1 word arithmetic, 2^32. -/
def MOD32 : Nat := 4294967296

/-- Left rotation of a 32-bit word `x` by `n` places (for `0 < n < 32`). -/
def rotl (n x : Nat) : Nat := ((x <<< n) % MOD32) + (x >>> (32 - n))

/-- Big-endian assembly of 32-bit words from a byte list (SHA-1 message words). -/
def bytesToWords : List Nat → List Nat
  | b0 :: b1 :: b2 :: b3 :: rest =>
      ((b0 % 256) * 16777216 + (b1 % 256) * 65536 + (b2 % 256) * 256 + b3 % 256)
        :: bytesToWords rest
  | _ => []

/-- The 8-byte big-endian encoding of the message bit length. -/
def lenBytes (n : Nat) : List Nat :=
  [(n >>> 56) % 256, (n >>> 48) % 256, (n >>> 40) % 256, (n >>> 32) % 256,
   (n >>> 24) % 256, (n >>> 16) % 256, (n >>> 8) % 256, n % 256]

/-- SHA-1 padding: append 0x80, zero bytes to 56 mod 64, then the bit length. -/
def sha1pad (msg : List Nat) : List Nat :=
  msg ++ 128 :: (List.replicate ((119 - msg.length % 64) % 64) 0 ++ lenBytes (8 * msg.length))

/-- Message-schedule extension: `acc` holds the words produced so far in
reverse order; `k` more words are produced by the SHA-1 recurrence
`w[i] = rotl 1 (w[i-3] xor w[i-8] xor w[i-14] xor w[i-16])`. -/
def sched : List Nat → Nat → List Nat
  | acc, 0 => acc.reverse
  | acc, k+1 =>
      sched (rotl 1 ((acc.getD 2 0) ^^^ (acc.getD 7 0) ^^^ (acc.getD 13 0) ^^^ (acc.getD 15 0))
        :: acc) k

/-- The five 32-bit words of SHA-1 chaining state (also used for the
rotating registers a..e during compression). -/
structure SHAState where
  h0 : Nat
  h1 : Nat
  h2 : Nat
  h3 : Nat
  h4 : Nat
deriving Repr, DecidableEq

/-- One SHA-1 compression round: round index `i` selects the boolean
function and constant; registers rotate. -/
def sha1Round (i w : Nat) (s : SHAState) : SHAState :=
  let f :=
    if i < 20 then (s.h1 &&& s.h2) ||| ((4294967295 - s.h1) &&& s.h3)
    else if i < 40 then s.h1 ^^^ s.h2 ^^^ s.h3
    else if i < 60 then (s.h1 &&& s.h2) ||| (s.h1 &&& s.h3) ||| (s.h2 &&& s.h3)
    else s.h1 ^^^ s.h2 ^^^ s.h3
  let k :=
    if i < 20 then 1518500249
    else if i < 40 then 1859775393
    else if i < 60 then 2400959708
    else 3395469782
  ⟨(rotl 5 s.h0 + f + s.h4 + k + w) % MOD32, s.h0, rotl 30 s.h1, s.h2, s.h3⟩

/-- Run the 80 compression rounds, one per schedule word, starting at round `i`. -/
def sha1Rounds : Nat → List Nat → SHAState → SHAState
  | _, [], s => s
  | i, w :: ws, s => sha1Rounds (i+1) ws (sha1Round i w s)

/-- Process one 64-byte block: expand the schedule, run the rounds, and add
the result into the chaining state mod 2^32. -/
def processBlock (h : SHAState) (block : List Nat) : SHAState :=
  let s := sha1Rounds 0 (sched (bytesToWords block).reverse 64) h
  ⟨(h.h0 + s.h0) % MOD32, (h.h1 + s.h1) % MOD32, (h.h2 + s.h2) % MOD32,
   (h.h3 + s.h3) % MOD32, (h.h4 + s.h4) % MOD32⟩

/-- The SHA-1 initial chaining state. -/
def sha1Init : SHAState := ⟨1732584193, 4023233417, 2562383102, 271733878, 3285377520⟩

/-- Split a list into chunks of size `n+1` (fuel-driven so it computes by
`rfl`; the fuel `l.length` always suffices since every step consumes at
least one element). -/
def chunksOfAux (n : Nat) : Nat → List Nat → List (List Nat)
  | _, [] => []
  | 0, _ => []
  | fuel+1, x :: xs => (x :: xs).take (n+1) :: chunksOfAux n fuel ((x :: xs).drop (n+1))

/-- Chunks of size `n+1` of a list. -/
def chunksOf (n : Nat) (l : List Nat) : List (List Nat) := chunksOfAux n l.length l

/-- Big-endian bytes of a 32-bit word. -/
def wordBytes (w : Nat) : List Nat := [(w >>> 24) % 256, (w >>> 16) % 256, (w >>> 8) % 256, w % 256]

/-- The SHA-1 digest (20 raw bytes) of a byte message: pad, process the
64-byte blocks, and serialize the final chaining state big-endian.
This models the `sha1` crate function `Sha1::digest` applied to the message. -/
def sha1 (msg : List Nat) : List Nat :=
  let s := (chunksOf 63 (sha1pad msg)).foldl processBlock sha1Init
  wordBytes s.h0 ++ wordBytes s.h1 ++ wordBytes s.h2 ++ wordBytes s.h3 ++ wordBytes s.h4

/-- The lowercase hexadecimal digit for a nibble value. -/
def hexDigit (n : Nat) : Char := if n < 10 then Char.ofNat (48 + n) else Char.ofNat (87 + n)

/-- The character list rendering each byte as two lowercase hex digits, in
byte order: models the Rust iterator of `format ("\x7b:02x\x7d", b)` over `u8`. -/
def hexChars : List Nat → List Char
  | [] => []
  | b :: bs => hexDigit (b % 256 / 16) :: hexDigit (b % 256 % 16) :: hexChars bs

/-- The hexadecimal string of a byte list: the digest rendering in
`hash_file` and `validate_file`. -/
def hexRender (bytes : List Nat) : String := String.mk (hexChars bytes)

/-- The kinds of `std::io::Error` values relevant to this library. -/
inductive ErrorKind where
  | notFound
  | permissionDenied
  | invalidData
  | other
deriving Repr, DecidableEq

/-- An `std::io::Error`: a kind plus a message. -/
structure IOError where
  kind : ErrorKind
  msg : String
deriving Repr, DecidableEq

/-- The error enum of the library, `SHAError` from `src/lib.rs`: the
`FailedValidation(String)` variant and the `IO(std::io::Error)` variant
(the latter also produced by the `#[from]` conversion behind `?`). -/
inductive SHAError where
  | failedValidation (path : String)
  | io (e : IOError)
deriving Repr, DecidableEq

deriving instance DecidableEq for Except

/-- The outcome of one `reader.read(&mut buffer)` call in the read loop:
`ok bytes` is `Ok(n)` together with the `n` bytes read (`ok []` is the
`Ok(0)` end-of-stream result), `err e` is `Err(e)`. -/
inductive ReadResult where
  | ok (bytes : List Nat)
  | err (e : IOError)
deriving Repr, DecidableEq

/-- The shared read-and-fold loop of `hash_file` / `validate_file` over
the sequence of read outcomes: accumulate bytes of each nonempty
successful read (the hasher state is extensionally its accumulated
input), stop at a zero-byte read, abort at the first read error. -/
def readFold : List ReadResult → List Nat → Except IOError (List Nat)
  | [], acc => .ok acc
  | .ok [] :: _, acc => .ok acc
  | .ok (b :: bs) :: rest, acc => readFold rest (acc ++ b :: bs)
  | .err e :: _, _ => .error e

/-- Embeds `hash_file` from `src/lib.rs`: run the read loop; on success
finalize and hex-render the digest, on a read error return
`Err(SHAError::IO(e))`. The `File` argument is modelled by the sequence
of read outcomes its `BufReader` produces. -/
def hash_file (rs : List ReadResult) : Except SHAError String :=
  match readFold rs [] with
  | .ok bytes => .ok (hexRender (sha1 bytes))
  | .error e => .error (.io e)

/-- ASCII-lowercasing of one character, as the Rust `to_ascii_lowercase`. -/
def asciiLower (c : Char) : Char :=
  if 65 ≤ c.toNat ∧ c.toNat ≤ 90 then Char.ofNat (c.toNat + 32) else c

/-- The Rust `str::eq_ignore_ascii_case`: equality after ASCII-lowercasing. -/
def eqIgnoreAsciiCase (a b : String) : Bool :=
  a.data.map asciiLower == b.data.map asciiLower

/-- Embeds `validate_file` from `src/lib.rs`: run the same read loop; on
success compare the computed hex digest case-insensitively with the
expected string, on any read error return `false`. -/
def validate_file (rs : List ReadResult) (h : String) : Bool :=
  match readFold rs [] with
  | .ok bytes => eqIgnoreAsciiCase (hexRender (sha1 bytes)) h
  | .error _ => false

/-- The read sequence a `BufReader` over an error-free file with content
`c` yields: successive chunks of at most 8192 bytes, then `Ok(0)`. -/
def chunkReads (c : List Nat) : List ReadResult :=
  (chunksOf 8191 c).map ReadResult.ok ++ [ReadResult.ok []]

/-- A filesystem path as the two observations the library makes of it:
whether `path.exists()` holds, and what `File::open` returns (on success,
the read outcomes of the opened file). -/
structure PathModel where
  fileExists : Bool
  openResult : Except IOError (List ReadResult)

/-- Embeds `validate_file_from_path` from `src/lib.rs`: on any open
failure return `Err(SHAError::IO(NotFound, "File not found"))` (the
`let Ok(file) = ... else` arm discards the cause); otherwise delegate to
`validate_file`. -/
def validate_file_from_path (p : PathModel) (h : String) : Except SHAError Bool :=
  match p.openResult with
  | .error _ => .error (.io ⟨.notFound, "File not found"⟩)
  | .ok rs => .ok (validate_file rs h)

/-- Embeds `hash_file_from_path` from `src/lib.rs`: if `path.exists()`
fails, return `Err(SHAError::IO(NotFound, "File not found"))` without
opening; otherwise `File::open(path)?` (propagating the open error via
`#[from]`) and delegate to `hash_file`. -/
def hash_file_from_path (p : PathModel) : Except SHAError String :=
  if p.fileExists then
    match p.openResult with
    | .error e => .error (.io e)
    | .ok rs => hash_file rs
  else .error (.io ⟨.notFound, "File not found"⟩)

/-- Embeds `impl Hashable for Path`, `fn hash`. -/
def pathHash (p : PathModel) : Except SHAError String := hash_file_from_path p

/-- Embeds `impl Hashable for Path`, `fn validate`. -/
def pathValidate (p : PathModel) (h : String) : Except SHAError Bool :=
  validate_file_from_path p h

/-- Embeds `impl Hashable for PathBuf`, `fn hash`. -/
def pathBufHash (p : PathModel) : Except SHAError String := hash_file_from_path p

/-- Embeds `impl Hashable for PathBuf`, `fn validate`. -/
def pathBufValidate (p : PathModel) (h : String) : Except SHAError Bool :=
  validate_file_from_path p h

/-- An open `std::fs::File`: the byte content of the regular file together
with the cursor position of its open file description. `File::try_clone`
duplicates the descriptor, and per its documentation the clone shares
this state ("Reads, writes, and seeks will affect both File instances
simultaneously"), so reads through a clone advance `pos` here. -/
structure OpenFile where
  content : List Nat
  pos : Nat
deriving Repr, DecidableEq

/-- The read loop of the digest engine run against an open file: each
iteration reads up to 8192 bytes at the cursor and advances it, stopping
at a zero-byte read. Fuel-driven so it computes by `rfl`; the fuel is
sufficient whenever it is at least `content.length - pos`, since each
iteration advances `pos` by at least one. -/
def readLoopAux : Nat → OpenFile → List Nat → List Nat × OpenFile
  | 0, f, acc => (acc, f)
  | fuel+1, f, acc =>
    if f.content.length ≤ f.pos then (acc, f)
    else
      let bs := (f.content.drop f.pos).take 8192
      readLoopAux fuel ⟨f.content, f.pos + bs.length⟩ (acc ++ bs)

/-- The read loop of the digest engine on an open file, with sufficient fuel. -/
def readLoop (f : OpenFile) (acc : List Nat) : List Nat × OpenFile :=
  readLoopAux (f.content.length - f.pos) f acc

/-- Embeds `impl Hashable for File`, `fn hash`:
`hash_file(self.try_clone()?)`. `cl` is the outcome `try_clone` would
produce: `some e` is a duplication failure (the `?` converts `e` into
`SHAError::IO(e)`, preserving it); `none` is success, after which the
engine reads through the clone, advancing the shared cursor. The
returned pair is (result, state of the file of the caller afterwards). -/
def fileHash (cl : Option IOError) (f : OpenFile) : Except SHAError String × OpenFile :=
  match cl with
  | some e => (.error (.io e), f)
  | none =>
    let r := readLoop f []
    (.ok (hexRender (sha1 r.1)), r.2)

/-- Embeds `impl Hashable for File`, `fn validate`: on `try_clone`
failure return `Err(SHAError::IO(io::Error::new(InvalidData, "Failed to
clone file")))`, discarding the cause; on success delegate to
`validate_file` on the clone, which reads through the shared cursor. -/
def fileValidate (cl : Option IOError) (f : OpenFile) (h : String) :
    Except SHAError Bool × OpenFile :=
  match cl with
  | some _ => (.error (.io ⟨.invalidData, "Failed to clone file"⟩), f)
  | none =>
    let r := readLoop f []
    (.ok (eqIgnoreAsciiCase (hexRender (sha1 r.1)) h), r.2)

/-! ### Helper lemmas about chunking and the read loops -/

/-- With sufficient fuel, flattening the chunks recovers the list. -/
theorem chunksOfAux_flatten (n : Nat) :
    ∀ fuel l, l.length ≤ fuel → (chunksOfAux n fuel l).flatten = l := by
  intro fuel
  induction fuel with
  | zero =>
    intro l hl
    cases l with
    | nil => rfl
    | cons x xs => simp at hl
  | succ fuel ih =>
    intro l hl
    cases l with
    | nil => rfl
    | cons x xs =>
      rw [chunksOfAux, List.flatten_cons, ih]
      · exact List.take_append_drop (n+1) (x :: xs)
      · simp only [List.length_drop, List.length_cons] at *
        omega

/-- Flattening the chunks of a list recovers the list. -/
theorem chunksOf_flatten (n : Nat) (l : List Nat) : (chunksOf n l).flatten = l :=
  chunksOfAux_flatten n l.length l (Nat.le_refl _)

/-- Every chunk produced by `chunksOfAux` is nonempty. -/
theorem chunksOfAux_ne_nil (n : Nat) :
    ∀ fuel l ch, ch ∈ chunksOfAux n fuel l → ch ≠ [] := by
  intro fuel
  induction fuel with
  | zero =>
    intro l ch hch
    cases l <;> simp [chunksOfAux] at hch
  | succ fuel ih =>
    intro l ch hch
    cases l with
    | nil => simp [chunksOfAux] at hch
    | cons x xs =>
      rw [chunksOfAux, List.mem_cons] at hch
      rcases hch with h | h
      · subst h
        simp [List.take]
      · exact ih _ ch h

/-- Every chunk of a list is nonempty. -/
theorem chunksOf_ne_nil (n : Nat) (l : List Nat) :
    ∀ ch ∈ chunksOf n l, ch ≠ [] :=
  fun ch h => chunksOfAux_ne_nil n l.length l ch h

/-- Folding the read loop over a block of nonempty successful reads
accumulates their concatenation and continues with the rest. -/
theorem readFold_map_ok (chunks : List (List Nat)) :
    ∀ rest acc, (∀ ch ∈ chunks, ch ≠ []) →
      readFold (chunks.map ReadResult.ok ++ rest) acc =
        readFold rest (acc ++ chunks.flatten) := by
  induction chunks with
  | nil => intro rest acc _; simp
  | cons c cs ih =>
    intro rest acc hne
    cases c with
    | nil => exact absurd rfl (hne [] (by simp))
    | cons b bs =>
      rw [List.map_cons, List.cons_append, readFold, ih]
      · simp
      · intro ch hch
        exact hne ch (List.mem_cons_of_mem _ hch)

/-- The read loop over the error-free read sequence of content `c`
accumulates exactly `c`. -/
theorem readFold_chunkReads (c : List Nat) : readFold (chunkReads c) [] = .ok c := by
  rw [chunkReads, readFold_map_ok _ _ _ (chunksOf_ne_nil 8191 c), chunksOf_flatten]
  rfl

/-- `hash_file` on the error-free read sequence of content `c` returns
the rendered SHA-1 digest of `c`. -/
theorem hash_file_chunkReads (c : List Nat) :
    hash_file (chunkReads c) = .ok (hexRender (sha1 c)) := by
  rw [hash_file, readFold_chunkReads]

/-- `validate_file` on the error-free read sequence of content `c`
compares the rendered digest of `c` with the expected string. -/
theorem validate_file_chunkReads (c : List Nat) (h : String) :
    validate_file (chunkReads c) h = eqIgnoreAsciiCase (hexRender (sha1 c)) h := by
  rw [validate_file, readFold_chunkReads]

/-! ### Helper lemmas about the hex rendering -/

/-- Lowercase-hex character test: an ASCII decimal digit or one of a..f. -/
def isLowerHexChar (c : Char) : Bool :=
  (48 ≤ c.toNat && c.toNat ≤ 57) || (97 ≤ c.toNat && c.toNat ≤ 102)

/-- Every nibble renders to a lowercase hex character. -/
theorem hexDigit_lowerHex : ∀ m, m < 16 → isLowerHexChar (hexDigit m) = true := by decide

/-- The hex rendering of a byte list has two characters per byte. -/
theorem hexChars_length (bs : List Nat) : (hexChars bs).length = 2 * bs.length := by
  induction bs with
  | nil => rfl
  | cons b bs ih => simp [hexChars, ih]; omega

/-- Every character of a hex rendering is a lowercase hex character. -/
theorem hexChars_all_lowerHex (bs : List Nat) :
    (hexChars bs).all isLowerHexChar = true := by
  induction bs with
  | nil => rfl
  | cons b bs ih =>
    rw [hexChars, List.all_cons, List.all_cons, ih]
    rw [hexDigit_lowerHex (b % 256 / 16) (by omega), hexDigit_lowerHex (b % 256 % 16) (by omega)]
    rfl

/-- The SHA-1 digest is 20 bytes long. -/
theorem sha1_length (msg : List Nat) : (sha1 msg).length = 20 := by
  simp [sha1, wordBytes]

/-- The rendered digest of any message is a 40-character string. -/
theorem hexRender_sha1_length (msg : List Nat) : (hexRender (sha1 msg)).length = 40 := by
  show (hexChars (sha1 msg)).length = 40
  rw [hexChars_length, sha1_length]

/-! ### Helper lemmas about case-insensitive comparison -/

/-- Case-insensitive equality holds exactly when the lowercased character
lists agree. -/
theorem eqIgnoreAsciiCase_iff (a b : String) :
    eqIgnoreAsciiCase a b = true ↔ a.data.map asciiLower = b.data.map asciiLower := by
  rw [eqIgnoreAsciiCase]
  exact beq_iff_eq

/-- Case-insensitive equality is reflexive. -/
theorem eqIgnoreAsciiCase_refl (a : String) : eqIgnoreAsciiCase a a = true :=
  (eqIgnoreAsciiCase_iff a a).mpr rfl

/-! ### Helper lemmas about the open-file read loop -/

/-- Dropping as many elements as a take kept is the same as dropping the
bound of the take. -/
theorem drop_length_take (n : Nat) (l : List Nat) :
    l.drop ((l.take n).length) = l.drop n := by
  rw [List.length_take]
  rcases Nat.le_total n l.length with h | h
  · rw [Nat.min_eq_left h]
  · rw [Nat.min_eq_right h, List.drop_eq_nil_of_le h, List.drop_eq_nil_of_le (Nat.le_refl _)]

/-- With sufficient fuel, the read loop returns the accumulated prefix
followed by the content from the cursor on, and leaves the cursor at
end of file (or where it was, if already past it). -/
theorem readLoopAux_spec :
    ∀ fuel (f : OpenFile) acc, f.content.length - f.pos ≤ fuel →
      readLoopAux fuel f acc =
        (acc ++ f.content.drop f.pos, ⟨f.content, max f.pos f.content.length⟩) := by
  intro fuel
  induction fuel with
  | zero =>
    intro f acc hf
    have hle : f.content.length ≤ f.pos := by omega
    rw [readLoopAux, List.drop_eq_nil_of_le hle, max_eq_left hle, List.append_nil]
  | succ fuel ih =>
    intro f acc hf
    rw [readLoopAux]
    by_cases hle : f.content.length ≤ f.pos
    · rw [if_pos hle, List.drop_eq_nil_of_le hle, max_eq_left hle, List.append_nil]
    · rw [if_neg hle]
      have hlt : f.pos < f.content.length := by omega
      have hbs : ((f.content.drop f.pos).take 8192).length = min 8192 (f.content.length - f.pos) := by
        rw [List.length_take, List.length_drop]
      have hk : 1 ≤ ((f.content.drop f.pos).take 8192).length ∧
          f.pos + ((f.content.drop f.pos).take 8192).length ≤ f.content.length := by
        rw [hbs, Nat.min_def]
        split <;> omega
      rw [ih]
      · have h1 : (f.content.drop (f.pos + ((f.content.drop f.pos).take 8192).length)) =
            (f.content.drop f.pos).drop (((f.content.drop f.pos).take 8192).length) := by
          rw [List.drop_drop]
        rw [h1, List.append_assoc, drop_length_take, List.take_append_drop]
        have h2 : max (f.pos + ((f.content.drop f.pos).take 8192).length) f.content.length
            = max f.pos f.content.length := by
          rw [max_eq_right hk.2, max_eq_right (Nat.le_of_lt hlt)]
        rw [h2]
      · show f.content.length - (f.pos + ((f.content.drop f.pos).take 8192).length) ≤ fuel
        omega

/-- The read loop, started anywhere, accumulates the content from the
cursor on and leaves the cursor at end of file. -/
theorem readLoop_spec (f : OpenFile) (acc : List Nat) :
    readLoop f acc = (acc ++ f.content.drop f.pos, ⟨f.content, max f.pos f.content.length⟩) :=
  readLoopAux_spec _ f acc (Nat.le_refl _)

/-- A read error after any block of nonempty successful reads makes
`hash_file` return `Err(SHAError::IO(e))`. -/
theorem hash_file_read_err (pre : List (List Nat)) (e : IOError) (rest : List ReadResult)
    (hne : ∀ ch ∈ pre, ch ≠ []) :
    hash_file (pre.map ReadResult.ok ++ ReadResult.err e :: rest) = .error (SHAError.io e) := by
  rw [hash_file, readFold_map_ok pre _ _ hne]
  rfl

/-- A read error after any block of nonempty successful reads makes
`validate_file` return `false`. -/
theorem validate_file_read_err (pre : List (List Nat)) (e : IOError) (rest : List ReadResult)
    (h : String) (hne : ∀ ch ∈ pre, ch ≠ []) :
    validate_file (pre.map ReadResult.ok ++ ReadResult.err e :: rest) h = false := by
  rw [validate_file, readFold_map_ok pre _ _ hne]
  rfl

/-- `File::hash` on a freshly opened handle (cursor at 0) with a
successful `try_clone`: returns the digest of the whole content and
leaves the shared cursor at end of file. -/
theorem fileHash_fresh (c : List Nat) :
    fileHash none ⟨c, 0⟩ = (.ok (hexRender (sha1 c)), ⟨c, c.length⟩) := by
  rw [fileHash, readLoop_spec]
  simp

/-! ### Claim theorems -/

set_option maxRecDepth 8192 in
/-- Claim C1: for every byte content read without error, `hash_file`
returns `Ok` of the SHA-1 digest of that content rendered as exactly 40
lowercase hexadecimal characters (two digits per digest byte, in byte
order); empty content yields the fixed digest
"da39a3ee5e6b4b0d3255bfef95601890afd80709" rather than an error, and
20000-byte content (beyond the 8192-byte chunk size) yields the digest
the single-pass reference computation `sha1` produces. -/
theorem C1_hash_file_digest (c : List Nat) :
    hash_file (chunkReads c) = .ok (hexRender (sha1 c)) ∧
    (hexRender (sha1 c)).length = 40 ∧
    (hexRender (sha1 c)).data.all isLowerHexChar = true ∧
    hash_file (chunkReads []) = .ok "da39a3ee5e6b4b0d3255bfef95601890afd80709" ∧
    hash_file (chunkReads (List.replicate 20000 65)) =
      .ok (hexRender (sha1 (List.replicate 20000 65))) :=
  ⟨hash_file_chunkReads c, hexRender_sha1_length c, hexChars_all_lowerHex (sha1 c),
   by rw [hash_file_chunkReads]; exact congrArg Except.ok (by decide),
   hash_file_chunkReads _⟩

/-- Concrete instance of C1: the empty content hashes to the fixed
empty-input SHA-1 digest. -/
theorem C1_witness :
    hash_file (chunkReads []) = .ok "da39a3ee5e6b4b0d3255bfef95601890afd80709" :=
  (C1_hash_file_digest []).2.2.2.1

/-- Claim C2: for content `c` read without error and any expected string
`h`, `validate_file` compares the digest of `c` with `h`
case-insensitively: it returns `true` exactly when `h` equals the digest
up to ASCII letter case (in particular the round trip on the digest
itself succeeds), and `false` for every other string — malformed strings
of wrong length or with non-hex characters simply compare unequal, and
the `Bool` return type admits no error. -/
theorem C2_validate_case_insensitive (c : List Nat) (h : String) :
    validate_file (chunkReads c) h = eqIgnoreAsciiCase (hexRender (sha1 c)) h ∧
    validate_file (chunkReads c) (hexRender (sha1 c)) = true ∧
    (validate_file (chunkReads c) h = true ↔
      (hexRender (sha1 c)).data.map asciiLower = h.data.map asciiLower) := by
  refine ⟨validate_file_chunkReads c h, ?_, ?_⟩
  · rw [validate_file_chunkReads]
    exact eqIgnoreAsciiCase_refl _
  · rw [validate_file_chunkReads]
    exact eqIgnoreAsciiCase_iff _ _

/-- Concrete instance of C2: the round trip at content `[1, 2]`. -/
theorem C2_witness :
    validate_file (chunkReads [1, 2]) (hexRender (sha1 [1, 2])) = true :=
  (C2_validate_case_insensitive [1, 2] (hexRender (sha1 [1, 2]))).2.1

/-- Claim C3: a mid-stream read failure is handled asymmetrically: after
any reads that succeeded, a failing read makes `hash_file` return
`Err(SHAError::IO(e))` immediately (no partial digest), while the same
failing read makes `validate_file` return `false` rather than an error. -/
theorem C3_read_error_asymmetry (pre : List (List Nat)) (e : IOError)
    (rest : List ReadResult) (h : String) (hne : ∀ ch ∈ pre, ch ≠ []) :
    hash_file (pre.map ReadResult.ok ++ ReadResult.err e :: rest) = .error (SHAError.io e) ∧
    validate_file (pre.map ReadResult.ok ++ ReadResult.err e :: rest) h = false :=
  ⟨hash_file_read_err pre e rest hne, validate_file_read_err pre e rest h hne⟩

/-- Concrete instance of C3: one successful read then an I/O failure. -/
theorem C3_witness :
    hash_file ([[1]].map ReadResult.ok ++ ReadResult.err ⟨ErrorKind.other, "io err"⟩ :: []) =
      .error (SHAError.io ⟨ErrorKind.other, "io err"⟩) ∧
    validate_file ([[1]].map ReadResult.ok ++ ReadResult.err ⟨ErrorKind.other, "io err"⟩ :: [])
      "" = false :=
  C3_read_error_asymmetry [[1]] ⟨ErrorKind.other, "io err"⟩ [] "" (by decide)

set_option maxRecDepth 8192 in
/-- Claim C4 is false on the code: `File::try_clone` duplicates the
descriptor but the clone shares the cursor, so after `file.hash()`
succeeds on the one-byte file "A" the position of the original handle has
moved off 0, and the two-call pattern `file.hash()` then
`file.validate(h)` with the digest of the file itself returns `Ok(false)`, not
`Ok(true)`. -/
theorem C4_counterexample :
    (fileHash none ⟨[65], 0⟩).1 = .ok (hexRender (sha1 [65])) ∧
    (fileHash none ⟨[65], 0⟩).2.pos ≠ 0 ∧
    (fileValidate none (fileHash none ⟨[65], 0⟩).2 (hexRender (sha1 [65]))).1 = .ok false :=
  ⟨rfl, by decide, by decide⟩

/-- Claim C4 amended: `File::hash` and `File::validate` duplicate the
handle before reading, but the duplicate shares the cursor of the original,
so a successful `file.hash()` on a freshly opened handle returns the
digest of the content while advancing the position of the caller to end of file;
a subsequent `file.validate(h)` on the same handle therefore hashes the
empty remainder and compares `h` against the empty-content digest (so
the two-call pattern yields `Ok(false)` for the digest of a nonempty file itself, and the caller must reopen, as the examples of the repository do). -/
theorem C4_clone_shares_cursor (c : List Nat) (h : String) :
    (fileHash none ⟨c, 0⟩).1 = .ok (hexRender (sha1 c)) ∧
    (fileHash none ⟨c, 0⟩).2 = ⟨c, c.length⟩ ∧
    (fileValidate none (fileHash none ⟨c, 0⟩).2 h).1 =
      .ok (eqIgnoreAsciiCase (hexRender (sha1 [])) h) := by
  refine ⟨by rw [fileHash_fresh], by rw [fileHash_fresh], ?_⟩
  rw [fileHash_fresh]
  show (fileValidate none ⟨c, c.length⟩ h).1 = _
  rw [fileValidate, readLoop_spec]
  simp

/-- Claim C5 is false on the code: an open failure whose cause is
permission denial (resource present) is reported by
`validate_file_from_path` as a NotFound-kind error with the fixed
message "File not found", not as an I/O error wrapping the cause. -/
theorem C5_counterexample :
    validate_file_from_path ⟨true, .error ⟨ErrorKind.permissionDenied, "denied"⟩⟩ "x" =
      .error (SHAError.io ⟨ErrorKind.notFound, "File not found"⟩) ∧
    validate_file_from_path ⟨true, .error ⟨ErrorKind.permissionDenied, "denied"⟩⟩ "x" ≠
      .error (SHAError.io ⟨ErrorKind.permissionDenied, "denied"⟩) :=
  ⟨rfl, by decide⟩

/-- Claim C5 amended: `validate_file_from_path` surfaces every open
failure as an error (never as `Ok(false)`), but the error is always the
same NotFound-kind I/O error with message "File not found", regardless
of the cause of the open failure — causes are not distinguishable. -/
theorem C5_validate_path_open_failure (p : PathModel) (h : String) (e : IOError)
    (he : p.openResult = .error e) :
    validate_file_from_path p h = .error (SHAError.io ⟨ErrorKind.notFound, "File not found"⟩) ∧
    ∀ b, validate_file_from_path p h ≠ .ok b := by
  have hv : validate_file_from_path p h =
      .error (SHAError.io ⟨ErrorKind.notFound, "File not found"⟩) := by
    rw [validate_file_from_path, he]
  exact ⟨hv, fun b hb => by rw [hv] at hb; cases hb⟩

/-- Concrete instance of C5 amended: a device-error open failure is
reported as the fixed NotFound error. -/
theorem C5_witness :
    validate_file_from_path ⟨true, .error ⟨ErrorKind.other, "device error"⟩⟩ "y" =
      .error (SHAError.io ⟨ErrorKind.notFound, "File not found"⟩) :=
  (C5_validate_path_open_failure ⟨true, .error ⟨ErrorKind.other, "device error"⟩⟩ "y"
    ⟨ErrorKind.other, "device error"⟩ rfl).1

/-- Claim C6 is false on the code: the error taxonomy has no
ResourceUnavailable kind. When `try_clone` fails with a NotFound-kind OS
error, `File::hash` propagates exactly that error — so the duplication
failure is not distinct from a NotFound error — while `File::validate`
reports an InvalidData-kind error; the two also disagree with each
other. -/
theorem C6_counterexample :
    (fileHash (some ⟨ErrorKind.notFound, "dup failed"⟩) ⟨[1], 0⟩).1 =
      .error (SHAError.io ⟨ErrorKind.notFound, "dup failed"⟩) ∧
    (fileValidate (some ⟨ErrorKind.notFound, "dup failed"⟩) ⟨[1], 0⟩ "x").1 =
      .error (SHAError.io ⟨ErrorKind.invalidData, "Failed to clone file"⟩) :=
  ⟨rfl, rfl⟩

/-- Claim C6 amended: whenever duplicating the handle fails, both
`File::hash` and `File::validate` return an `Err` of the `IO` variant
(never `Ok`, so both remain distinct from a content mismatch), but not
of a dedicated ResourceUnavailable kind: `hash` propagates the
underlying error unchanged, whatever its kind, and `validate` returns
the fixed InvalidData-kind error with message "Failed to clone file". -/
theorem C6_clone_failure_is_io_error (e : IOError) (f g : OpenFile) (h : String) :
    (fileHash (some e) f).1 = .error (SHAError.io e) ∧
    (fileValidate (some e) g h).1 =
      .error (SHAError.io ⟨ErrorKind.invalidData, "Failed to clone file"⟩) ∧
    (∀ s, (fileHash (some e) f).1 ≠ .ok s) ∧
    (∀ b, (fileValidate (some e) g h).1 ≠ .ok b) := by
  refine ⟨rfl, rfl, ?_, ?_⟩
  · intro s hs
    simp [fileHash] at hs
  · intro b hb
    simp [fileValidate] at hb

/-- Concrete instance of C6 amended: a duplication failure of unlisted
kind is propagated by `hash` and replaced by `validate`. -/
theorem C6_witness :
    (fileHash (some ⟨ErrorKind.other, "busy"⟩) ⟨[2], 0⟩).1 =
      .error (SHAError.io ⟨ErrorKind.other, "busy"⟩) ∧
    (fileValidate (some ⟨ErrorKind.other, "busy"⟩) ⟨[2], 0⟩ "z").1 =
      .error (SHAError.io ⟨ErrorKind.invalidData, "Failed to clone file"⟩) :=
  ⟨(C6_clone_failure_is_io_error ⟨ErrorKind.other, "busy"⟩ ⟨[2], 0⟩ ⟨[2], 0⟩ "z").1,
   (C6_clone_failure_is_io_error ⟨ErrorKind.other, "busy"⟩ ⟨[2], 0⟩ ⟨[2], 0⟩ "z").2.1⟩

/-- Claim C7: `hash_file_from_path` checks existence first and, if the
path is absent, fails with the NotFound-kind error without attempting
the open (the result does not depend on what opening would return); if
the path exists, an open failure propagates as an I/O error wrapping the
underlying cause, and so does a mid-stream read failure — so NotFound
and other I/O errors are distinguishable by the caller. -/
theorem C7_hash_path_error_kinds (o o2 : Except IOError (List ReadResult)) (e : IOError)
    (pre : List (List Nat)) (rest : List ReadResult) (hne : ∀ ch ∈ pre, ch ≠ []) :
    hash_file_from_path ⟨false, o⟩ =
      .error (SHAError.io ⟨ErrorKind.notFound, "File not found"⟩) ∧
    hash_file_from_path ⟨false, o⟩ = hash_file_from_path ⟨false, o2⟩ ∧
    hash_file_from_path ⟨true, .error e⟩ = .error (SHAError.io e) ∧
    hash_file_from_path ⟨true, .ok (pre.map ReadResult.ok ++ ReadResult.err e :: rest)⟩ =
      .error (SHAError.io e) := by
  refine ⟨rfl, rfl, rfl, ?_⟩
  show hash_file (pre.map ReadResult.ok ++ ReadResult.err e :: rest) = _
  exact hash_file_read_err pre e rest hne

/-- Concrete instance of C7: a permission-denial read failure on an
existing path surfaces with its own kind, distinguishable from NotFound. -/
theorem C7_witness :
    hash_file_from_path ⟨true, .ok ([[3]].map ReadResult.ok ++
        ReadResult.err ⟨ErrorKind.permissionDenied, "denied"⟩ :: [])⟩ =
      .error (SHAError.io ⟨ErrorKind.permissionDenied, "denied"⟩) :=
  (C7_hash_path_error_kinds (.ok []) (.ok []) ⟨ErrorKind.permissionDenied, "denied"⟩
    [[3]] [] (by decide)).2.2.2

/-- Claim C8: digest computation is a pure function of byte content: the
embedding is deterministic by construction, and hashing the same content
through the digest engine, through `Path::hash`, through
`PathBuf::hash`, or through a freshly opened `File` handle all return
`Ok` of the identical rendered digest. -/
theorem C8_digest_pure (c : List Nat) :
    hash_file (chunkReads c) = .ok (hexRender (sha1 c)) ∧
    pathHash ⟨true, .ok (chunkReads c)⟩ = .ok (hexRender (sha1 c)) ∧
    pathBufHash ⟨true, .ok (chunkReads c)⟩ = .ok (hexRender (sha1 c)) ∧
    (fileHash none ⟨c, 0⟩).1 = .ok (hexRender (sha1 c)) := by
  have hp : pathHash ⟨true, .ok (chunkReads c)⟩ = hash_file (chunkReads c) := rfl
  have hb : pathBufHash ⟨true, .ok (chunkReads c)⟩ = hash_file (chunkReads c) := rfl
  refine ⟨hash_file_chunkReads c, ?_, ?_, by rw [fileHash_fresh]⟩
  · rw [hp, hash_file_chunkReads]
  · rw [hb, hash_file_chunkReads]

/-- Concrete instance of C8 at the one-byte content `[5]`. -/
theorem C8_witness : (fileHash none ⟨[5], 0⟩).1 = .ok (hexRender (sha1 [5])) :=
  (C8_digest_pure [5]).2.2.2

/-- Claim C9: no validation path ever returns the `FailedValidation`
error: for every path model, expected string, duplication outcome and
open file, the `Err` values of `validate_file_from_path`,
`Path::validate`, `PathBuf::validate` and `File::validate` are never of
the `FailedValidation` variant (and `validate_file` itself returns a
bare `Bool`, which admits no error at all). -/
theorem C9_no_failedValidation (p : PathModel) (h : String) (cl : Option IOError)
    (f : OpenFile) (s : String) :
    validate_file_from_path p h ≠ .error (SHAError.failedValidation s) ∧
    pathValidate p h ≠ .error (SHAError.failedValidation s) ∧
    pathBufValidate p h ≠ .error (SHAError.failedValidation s) ∧
    (fileValidate cl f h).1 ≠ .error (SHAError.failedValidation s) := by
  have hv : ∀ q : PathModel, validate_file_from_path q h ≠
      .error (SHAError.failedValidation s) := by
    intro q hq
    rcases q with ⟨qe, qo⟩
    cases qo <;> simp [validate_file_from_path] at hq
  refine ⟨hv p, hv p, hv p, ?_⟩
  intro hq
  cases cl <;> simp [fileValidate] at hq

/-- Concrete instance of C9 on an empty readable path. -/
theorem C9_witness :
    validate_file_from_path ⟨true, .ok []⟩ "q" ≠ .error (SHAError.failedValidation "t") :=
  (C9_no_failedValidation ⟨true, .ok []⟩ "q" none ⟨[], 0⟩ "t").1

/-- The error of a result, if any: lets results of different success
types be compared by the error they report. -/
def errOf {A : Type} : Except SHAError A → Option SHAError
  | .error e => some e
  | .ok _ => none

/-- Claim C10: the two `File` operations classify the same duplication
failure inconsistently: `File::hash` propagates the OS-reported error
unchanged (kind and cause preserved), `File::validate` discards the
cause and returns the fixed InvalidData-kind error with message "Failed
to clone file"; for a permission-denied duplication failure the two
therefore report different errors. -/
theorem C10_clone_failure_kinds_differ (e : IOError) (f g : OpenFile) (h : String) :
    (fileHash (some e) f).1 = .error (SHAError.io e) ∧
    (fileValidate (some e) g h).1 =
      .error (SHAError.io ⟨ErrorKind.invalidData, "Failed to clone file"⟩) ∧
    errOf (fileHash (some ⟨ErrorKind.permissionDenied, "os error"⟩) f).1 ≠
      errOf (fileValidate (some ⟨ErrorKind.permissionDenied, "os error"⟩) g h).1 :=
  ⟨rfl, rfl, by intro hq; simp [errOf, fileHash, fileValidate] at hq⟩

/-- Concrete instance of C10: the two operations disagree on the same
permission-denied duplication failure. -/
theorem C10_witness :
    errOf (fileHash (some ⟨ErrorKind.permissionDenied, "os error"⟩) ⟨[], 0⟩).1 ≠
      errOf (fileValidate (some ⟨ErrorKind.permissionDenied, "os error"⟩) ⟨[], 0⟩ "w").1 :=
  (C10_clone_failure_kinds_differ ⟨ErrorKind.permissionDenied, "os error"⟩
    ⟨[], 0⟩ ⟨[], 0⟩ "w").2.2
